import Mathlib

/-!
Shallow embedding of the linphone core orchestration layer
(core.cpp and conference/session/port-config.h) and proofs of the
specified properties: listener-registry broadcast semantics,
foreground/background execution-state transitions, the shutdown drain
loop, storage-backend resolution at init, and the unread-message
aggregation queries.
-/

set_option autoImplicit false
set_option linter.unusedVariables false

namespace LinphoneCore

/-! ## Data model -/

/-- Listener handles are compared by identity (pointer value in the
source); we model the identity as a natural number. -/
abbrev Listener := Nat

/-- Opaque payload of onGlobalStateChanged, an enum in the source. -/
abbrev LinphoneGlobalState := Nat

/-- Opaque payload of onRegistrationStateChanged, an enum in the source. -/
abbrev LinphoneRegistrationState := Nat

/-- Opaque proxy-config handle passed to onRegistrationStateChanged. -/
abbrev LinphoneProxyConfig := Nat

/-- The five callback hooks of CoreListener, used to tag dispatch-log
entries by event kind. -/
inductive EventKind where
  | globalState
  | networkReachable
  | registrationState
  | enteringBackground
  | enteringForeground
  deriving DecidableEq, Repr

/-- The observable state of CorePrivate relevant to listener dispatch:
the ordered listener collection, the background flag (false initially,
i.e. foreground), and a log recording every callback invocation in
dispatch order as an (event kind, listener) pair. The log is the
observation instrument for the broadcast theorems; the source has no
such field. -/
structure CoreState where
  listeners : List Listener
  isInBackground : Bool
  log : List (EventKind × Listener)
  deriving DecidableEq, Repr

/-- A callback body: invoked with the listener identity, it may mutate
the listener collection (register or unregister listeners, including
itself). Quantifying theorems over all such bodies captures arbitrary
re-entrant mutation of the registry from inside a callback. -/
abbrev Callback := Listener → List Listener → List Listener

namespace CorePrivate

/-- CorePrivate::registerListener: listeners.push_back(listener). -/
def registerListener (listener : Listener) (s : CoreState) : CoreState :=
  { s with listeners := s.listeners ++ [listener] }

/-- CorePrivate::unregisterListener: listeners.remove(listener);
std::list::remove erases all elements equal to the value. -/
def unregisterListener (listener : Listener) (s : CoreState) : CoreState :=
  { s with listeners := s.listeners.filter (fun x => x ≠ listener) }

/-- CorePrivate::notifyGlobalStateChanged: copies the listener
collection, then invokes onGlobalStateChanged on each member of the
copy in order. Each invocation is logged and may mutate the live
collection through the callback body cb. -/
def notifyGlobalStateChanged (cb : Callback) (state : LinphoneGlobalState)
    (s : CoreState) : CoreState :=
  let listenersCopy := s.listeners
  listenersCopy.foldl (fun st listener =>
    { st with
      listeners := cb listener st.listeners,
      log := st.log ++ [(EventKind.globalState, listener)] }) s

/-- CorePrivate::notifyNetworkReachable: same copy-then-iterate shape,
dispatching onNetworkReachable. -/
def notifyNetworkReachable (cb : Callback)
    (sipNetworkReachable mediaNetworkReachable : Bool)
    (s : CoreState) : CoreState :=
  let listenersCopy := s.listeners
  listenersCopy.foldl (fun st listener =>
    { st with
      listeners := cb listener st.listeners,
      log := st.log ++ [(EventKind.networkReachable, listener)] }) s

/-- CorePrivate::notifyRegistrationStateChanged: same copy-then-iterate
shape, dispatching onRegistrationStateChanged. -/
def notifyRegistrationStateChanged (cb : Callback)
    (cfg : LinphoneProxyConfig) (state : LinphoneRegistrationState)
    (message : String) (s : CoreState) : CoreState :=
  let listenersCopy := s.listeners
  listenersCopy.foldl (fun st listener =>
    { st with
      listeners := cb listener st.listeners,
      log := st.log ++ [(EventKind.registrationState, listener)] }) s

/-- CorePrivate::notifyEnteringBackground: returns immediately when
already in background; otherwise sets the flag and broadcasts
onEnteringBackground over a copy of the listener collection. -/
def notifyEnteringBackground (cb : Callback) (s : CoreState) : CoreState :=
  if s.isInBackground then s
  else
    let s := { s with isInBackground := true }
    let listenersCopy := s.listeners
    listenersCopy.foldl (fun st listener =>
      { st with
        listeners := cb listener st.listeners,
        log := st.log ++ [(EventKind.enteringBackground, listener)] }) s

/-- CorePrivate::notifyEnteringForeground: returns immediately when
already in foreground; otherwise clears the flag and broadcasts
onEnteringForeground over a copy of the listener collection. -/
def notifyEnteringForeground (cb : Callback) (s : CoreState) : CoreState :=
  if !s.isInBackground then s
  else
    let s := { s with isInBackground := false }
    let listenersCopy := s.listeners
    listenersCopy.foldl (fun st listener =>
      { st with
        listeners := cb listener st.listeners,
        log := st.log ++ [(EventKind.enteringForeground, listener)] }) s

end CorePrivate

namespace Core

/-- Core::enterBackground delegates to CorePrivate::notifyEnteringBackground. -/
def enterBackground (cb : Callback) (s : CoreState) : CoreState :=
  CorePrivate.notifyEnteringBackground cb s

/-- Core::enterForeground delegates to CorePrivate::notifyEnteringForeground. -/
def enterForeground (cb : Callback) (s : CoreState) : CoreState :=
  CorePrivate.notifyEnteringForeground cb s

end Core

/-! ## Broadcast loop lemmas -/

/-- The dispatch log produced by the copy-then-iterate loop: folding
the broadcast step over any listener list appends exactly one tagged
entry per list member, in list order, regardless of how the callback
bodies mutate the live collection. -/
theorem foldl_broadcast_log (ev : EventKind) (cb : Callback) :
    ∀ (L : List Listener) (st : CoreState),
      (L.foldl (fun st listener =>
        { st with
          listeners := cb listener st.listeners,
          log := st.log ++ [(ev, listener)] }) st).log
      = st.log ++ L.map (fun listener => (ev, listener)) := by
  intro L
  induction L with
  | nil => intro st; simp
  | cons a L ih =>
      intro st
      simp only [List.foldl_cons, List.map_cons]
      rw [ih]
      simp

/-- The broadcast loop never touches the background flag. -/
theorem foldl_broadcast_isInBackground (ev : EventKind) (cb : Callback) :
    ∀ (L : List Listener) (st : CoreState),
      (L.foldl (fun st listener =>
        { st with
          listeners := cb listener st.listeners,
          log := st.log ++ [(ev, listener)] }) st).isInBackground
      = st.isInBackground := by
  intro L
  induction L with
  | nil => intro st; rfl
  | cons a L ih => intro st; rw [List.foldl_cons, ih]

/-- Counting a tagged log entry over a map that pairs a fixed event
kind with each listener counts the listener in the underlying list. -/
theorem count_map_eventPair (ev : EventKind) (l : Listener) :
    ∀ L : List Listener,
      List.count (ev, l) (L.map (fun listener => (ev, listener))) = L.count l
  | [] => rfl
  | a :: L => by
      simp only [List.map_cons, List.count_cons, count_map_eventPair ev l L,
        Prod.mk.injEq, beq_iff_eq]
      by_cases h : a = l
      · simp [h]
      · simp [h, fun he : l = a => h he.symm]

/-- notifyEnteringBackground is a no-op when the flag is already set. -/
theorem notifyEnteringBackground_of_inBackground (cb : Callback) (t : CoreState)
    (h : t.isInBackground = true) :
    CorePrivate.notifyEnteringBackground cb t = t := by
  simp [CorePrivate.notifyEnteringBackground, h]

/-- notifyEnteringForeground is a no-op when the flag is already clear. -/
theorem notifyEnteringForeground_of_inForeground (cb : Callback) (t : CoreState)
    (h : t.isInBackground = false) :
    CorePrivate.notifyEnteringForeground cb t = t := by
  simp [CorePrivate.notifyEnteringForeground, h]

/-! ## Claim theorems: listener registry and broadcasts -/

/-- Claim C1: for every listener-registry content and every event kind
(global-state-changed, network-reachable-changed,
registration-state-changed), a broadcast notifies exactly the listeners
present at the moment the broadcast begins, each exactly once, in
registration order, regardless of the registry mutations the callback
bodies perform mid-broadcast: the dispatch log gains exactly one entry
per member of the pre-broadcast collection, in collection order. -/
theorem broadcast_notifies_snapshot_each_once_in_order
    (cb : Callback) (gs : LinphoneGlobalState) (sip media : Bool)
    (cfg : LinphoneProxyConfig) (rs : LinphoneRegistrationState)
    (msg : String) (s : CoreState) :
    (CorePrivate.notifyGlobalStateChanged cb gs s).log
      = s.log ++ s.listeners.map (fun listener => (EventKind.globalState, listener))
    ∧ (CorePrivate.notifyNetworkReachable cb sip media s).log
      = s.log ++ s.listeners.map (fun listener => (EventKind.networkReachable, listener))
    ∧ (CorePrivate.notifyRegistrationStateChanged cb cfg rs msg s).log
      = s.log ++ s.listeners.map (fun listener => (EventKind.registrationState, listener)) := by
  refine ⟨?_, ?_, ?_⟩
  · exact foldl_broadcast_log EventKind.globalState cb s.listeners s
  · exact foldl_broadcast_log EventKind.networkReachable cb s.listeners s
  · exact foldl_broadcast_log EventKind.registrationState cb s.listeners s

/-- Claim C9: the registry has multiset semantics keyed by identity.
registerListener appends without deduplication, so a listener
registered twice (starting from a registry not containing it) is
notified exactly twice by a broadcast; unregisterListener removes all
occurrences equal by identity, so a subsequent broadcast notifies that
listener zero times. -/
theorem listener_registry_multiset (L Lp : List Listener) (l : Listener)
    (cb : Callback) (gs : LinphoneGlobalState) (h : l ∉ L) :
    (CorePrivate.registerListener l ⟨L, false, []⟩).listeners = L ++ [l]
    ∧ ((CorePrivate.notifyGlobalStateChanged cb gs
        (CorePrivate.registerListener l
          (CorePrivate.registerListener l ⟨L, false, []⟩))).log.count
        (EventKind.globalState, l)) = 2
    ∧ ((CorePrivate.notifyGlobalStateChanged cb gs
        (CorePrivate.unregisterListener l ⟨Lp, false, []⟩)).log.count
        (EventKind.globalState, l)) = 0 := by
  refine ⟨rfl, ?_, ?_⟩
  · have hlog := foldl_broadcast_log EventKind.globalState cb
      (((L ++ [l]) ++ [l])) ⟨(L ++ [l]) ++ [l], false, []⟩
    simp only [CorePrivate.notifyGlobalStateChanged, CorePrivate.registerListener]
    rw [hlog, List.nil_append, count_map_eventPair]
    simp [List.count_append, List.count_eq_zero_of_not_mem h]
  · have hlog := foldl_broadcast_log EventKind.globalState cb
      (Lp.filter (fun x => x ≠ l)) ⟨Lp.filter (fun x => x ≠ l), false, []⟩
    simp only [CorePrivate.notifyGlobalStateChanged, CorePrivate.unregisterListener]
    rw [hlog, List.nil_append, count_map_eventPair]
    refine List.count_eq_zero_of_not_mem ?_
    intro hmem
    rcases List.mem_filter.mp hmem with ⟨-, hne⟩
    simp at hne

/-- Witness for C9 at concrete inputs. -/
theorem listener_registry_multiset_witness :
    (7 : Listener) ∉ ([1, 2] : List Listener)
    ∧ ((CorePrivate.registerListener 7 ⟨[1, 2], false, []⟩).listeners = [1, 2] ++ [7]
      ∧ ((CorePrivate.notifyGlobalStateChanged (fun _ ls => ls) 0
          (CorePrivate.registerListener 7
            (CorePrivate.registerListener 7 ⟨[1, 2], false, []⟩))).log.count
          (EventKind.globalState, 7)) = 2
      ∧ ((CorePrivate.notifyGlobalStateChanged (fun _ ls => ls) 0
          (CorePrivate.unregisterListener 7 ⟨[7, 3, 7], false, []⟩)).log.count
          (EventKind.globalState, 7)) = 0) :=
  ⟨by decide,
   listener_registry_multiset [1, 2] [7, 3, 7] 7 (fun _ ls => ls) 0 (by decide)⟩

/-- Claim C4: enterBackground and enterForeground are
idempotency-guarded transitions over the two-state flag. The operation
matching the current state changes nothing and emits no notification;
a genuine transition flips the flag and broadcasts exactly one round of
the corresponding notification; hence two consecutive enterBackground
calls emit exactly one entering-background round, and enterForeground
when already foreground emits none. -/
theorem enter_background_foreground_guarded (cb cb2 : Callback) (s : CoreState) :
    (s.isInBackground = false → Core.enterForeground cb s = s)
    ∧ (s.isInBackground = true → Core.enterBackground cb s = s)
    ∧ (s.isInBackground = false →
        (Core.enterBackground cb s).isInBackground = true
        ∧ (Core.enterBackground cb s).log
            = s.log ++ s.listeners.map (fun listener =>
                (EventKind.enteringBackground, listener))
        ∧ (Core.enterBackground cb2 (Core.enterBackground cb s)).log
            = s.log ++ s.listeners.map (fun listener =>
                (EventKind.enteringBackground, listener)))
    ∧ (s.isInBackground = true →
        (Core.enterForeground cb s).isInBackground = false
        ∧ (Core.enterForeground cb s).log
            = s.log ++ s.listeners.map (fun listener =>
                (EventKind.enteringForeground, listener))
        ∧ (Core.enterForeground cb2 (Core.enterForeground cb s)).log
            = s.log ++ s.listeners.map (fun listener =>
                (EventKind.enteringForeground, listener))) := by
  refine ⟨?_, ?_, ?_, ?_⟩
  · intro h
    simp [Core.enterForeground, CorePrivate.notifyEnteringForeground, h]
  · intro h
    simp [Core.enterBackground, CorePrivate.notifyEnteringBackground, h]
  · intro h
    have hbg : (Core.enterBackground cb s).isInBackground = true := by
      simp only [Core.enterBackground, CorePrivate.notifyEnteringBackground, h]
      simp only [Bool.false_eq_true, if_false]
      exact foldl_broadcast_isInBackground EventKind.enteringBackground cb
        s.listeners { s with isInBackground := true }
    have hlog : (Core.enterBackground cb s).log
        = s.log ++ s.listeners.map (fun listener =>
            (EventKind.enteringBackground, listener)) := by
      simp only [Core.enterBackground, CorePrivate.notifyEnteringBackground, h]
      simp only [Bool.false_eq_true, if_false]
      exact foldl_broadcast_log EventKind.enteringBackground cb
        s.listeners { s with isInBackground := true }
    refine ⟨hbg, hlog, ?_⟩
    show (CorePrivate.notifyEnteringBackground cb2 (Core.enterBackground cb s)).log = _
    rw [notifyEnteringBackground_of_inBackground cb2 (Core.enterBackground cb s) hbg]
    exact hlog
  · intro h
    have hfg : (Core.enterForeground cb s).isInBackground = false := by
      simp only [Core.enterForeground, CorePrivate.notifyEnteringForeground, h]
      simp only [Bool.not_true, Bool.false_eq_true, if_false]
      exact foldl_broadcast_isInBackground EventKind.enteringForeground cb
        s.listeners { s with isInBackground := false }
    have hlog : (Core.enterForeground cb s).log
        = s.log ++ s.listeners.map (fun listener =>
            (EventKind.enteringForeground, listener)) := by
      simp only [Core.enterForeground, CorePrivate.notifyEnteringForeground, h]
      simp only [Bool.not_true, Bool.false_eq_true, if_false]
      exact foldl_broadcast_log EventKind.enteringForeground cb
        s.listeners { s with isInBackground := false }
    refine ⟨hfg, hlog, ?_⟩
    show (CorePrivate.notifyEnteringForeground cb2 (Core.enterForeground cb s)).log = _
    rw [notifyEnteringForeground_of_inForeground cb2 (Core.enterForeground cb s) hfg]
    exact hlog

/-- Witness for C4 at a concrete foreground state with two listeners. -/
theorem enter_background_foreground_guarded_witness :
    (Core.enterBackground (fun _ ls => ls)
      (Core.enterBackground (fun _ ls => ls) ⟨[4, 5], false, []⟩)).log
    = [] ++ [4, 5].map (fun listener => (EventKind.enteringBackground, listener)) :=
  ((enter_background_foreground_guarded (fun _ ls => ls) (fun _ ls => ls)
      ⟨[4, 5], false, []⟩).2.2.1 rfl).2.2

/-! ## Conversation entities and the shutdown drain -/

/-- Identity addresses are compared by exact value in the aggregation
queries; we model them as strings. -/
abbrev IdentityAddress := String

/-- A conversation entity as consumed read-only by the aggregator:
exposes its local address and its own unread-message count
(getLocalAddress and getUnreadChatMessageCount in the source). -/
structure ChatRoom where
  localAddress : IdentityAddress
  unreadChatMessageCount : Int
  deriving DecidableEq, Repr

/-- Observable events of the uninit drain loop: the termination request
addressed to the front call, the external event-loop tick
(linphone_core_iterate), and the fixed sleep (ms_usleep, in
microseconds). -/
inductive DrainEvent where
  | terminate (call : Nat)
  | iterate
  | sleep (us : Nat)
  deriving DecidableEq, Repr

/-- The state torn down by CorePrivate::uninit: the active-call
collection, the two conversation-entity indices, the
pending-creation placeholder set, the two list-event-handler
sub-objects, and the process-wide SIP-address cache. -/
structure UninitState where
  calls : List Nat
  chatRooms : List ChatRoom
  chatRoomsById : List (Nat × ChatRoom)
  noCreatedClientGroupChatRooms : List ChatRoom
  remoteListEventHandler : Bool
  localListEventHandler : Bool
  sipAddressesCache : List IdentityAddress
  deriving DecidableEq, Repr

/-- The drain loop of CorePrivate::uninit. Each iteration requests
termination of the front call, ticks the external event loop and
sleeps 10 ms (10000 us); the effect of the tick on the active-call
collection is the environment function env. The loop exits only when
the collection is empty; fuel bounds the number of polls so the
possibly unbounded wait is representable, and exhausting it yields
none (the source would still be looping, not returning). -/
def uninitLoop (env : List Nat → List Nat) :
    Nat → List Nat → List DrainEvent → Option (List Nat × List DrainEvent)
  | _, [], trace => some ([], trace)
  | 0, _ :: _, _ => none
  | fuel + 1, c :: rest, trace =>
      uninitLoop env fuel (env (c :: rest))
        (trace ++ [DrainEvent.terminate c, DrainEvent.iterate, DrainEvent.sleep 10000])

/-- The event trace produced by n polls of the drain loop: each poll
terminates the front of the current collection, ticks once and sleeps
10 ms, the collection evolving by env between polls. -/
def drainTrace (env : List Nat → List Nat) : Nat → List Nat → List DrainEvent
  | 0, _ => []
  | n + 1, calls =>
      match calls with
      | [] => []
      | c :: rest =>
          DrainEvent.terminate c :: DrainEvent.iterate :: DrainEvent.sleep 10000 ::
            drainTrace env n (env (c :: rest))

/-- CorePrivate::uninit: drain the active calls, then clear the
conversation-entity indices and the pending-creation set, release the
two list-event handlers, and clear the SIP-address cache. Returns the
final state and drain trace, or none when the drain is still looping
at fuel exhaustion. -/
def CorePrivate.uninit (env : List Nat → List Nat) (fuel : Nat)
    (s : UninitState) : Option (UninitState × List DrainEvent) :=
  match uninitLoop env fuel s.calls [] with
  | none => none
  | some (finalCalls, trace) =>
      some ({ s with
        calls := finalCalls,
        chatRooms := [],
        chatRoomsById := [],
        noCreatedClientGroupChatRooms := [],
        remoteListEventHandler := false,
        localListEventHandler := false,
        sipAddressesCache := [] }, trace)

/-- If the drain loop returns, the call collection has become empty,
it did so at the first poll count n where iterating env empties it,
and the trace is exactly the n-poll drain trace appended to the
incoming trace. -/
theorem uninitLoop_spec (env : List Nat → List Nat) :
    ∀ (fuel : Nat) (calls : List Nat) (trace : List DrainEvent)
      (fc : List Nat) (tr : List DrainEvent),
      uninitLoop env fuel calls trace = some (fc, tr) →
      fc = [] ∧ ∃ n, n ≤ fuel ∧ env^[n] calls = []
        ∧ (∀ m, m < n → env^[m] calls ≠ [])
        ∧ tr = trace ++ drainTrace env n calls := by
  intro fuel
  induction fuel with
  | zero =>
      intro calls trace fc tr h
      match calls, h with
      | [], h =>
          simp only [uninitLoop, Option.some.injEq, Prod.mk.injEq] at h
          refine ⟨h.1.symm, 0, Nat.le_refl 0, rfl, fun m hm => absurd hm (Nat.not_lt_zero m), ?_⟩
          simp [drainTrace, h.2]
  | succ fuel ih =>
      intro calls trace fc tr h
      match calls, h with
      | [], h =>
          simp only [uninitLoop, Option.some.injEq, Prod.mk.injEq] at h
          refine ⟨h.1.symm, 0, Nat.zero_le _, rfl, fun m hm => absurd hm (Nat.not_lt_zero m), ?_⟩
          simp [drainTrace, h.2]
      | c :: rest, h =>
          have h' : uninitLoop env fuel (env (c :: rest))
              (trace ++ [DrainEvent.terminate c, DrainEvent.iterate,
                DrainEvent.sleep 10000]) = some (fc, tr) := h
          rcases ih (env (c :: rest)) _ fc tr h' with ⟨hfc, n, hn, hempty, hmin, htr⟩
          refine ⟨hfc, n + 1, Nat.succ_le_succ hn, ?_, ?_, ?_⟩
          · rw [Function.iterate_succ_apply]
            exact hempty
          · intro m hm
            match m with
            | 0 => simp
            | m + 1 =>
                rw [Function.iterate_succ_apply]
                exact hmin m (Nat.lt_of_succ_lt_succ hm)
          · rw [htr]
            simp [drainTrace]

/-- A drain trace of n full polls ticks the event loop exactly once
and sleeps 10 ms exactly once per poll. -/
theorem drainTrace_counts (env : List Nat → List Nat) :
    ∀ (n : Nat) (calls : List Nat),
      (∀ m, m < n → env^[m] calls ≠ []) →
      (drainTrace env n calls).count DrainEvent.iterate = n
      ∧ (drainTrace env n calls).count (DrainEvent.sleep 10000) = n := by
  intro n
  induction n with
  | zero => intro calls _; exact ⟨rfl, rfl⟩
  | succ n ih =>
      intro calls hne
      have h0 : calls ≠ [] := by
        have := hne 0 (Nat.succ_pos n)
        simpa using this
      match calls, h0 with
      | c :: rest, _ =>
          have hrec := ih (env (c :: rest)) (fun m hm => by
            have := hne (m + 1) (Nat.succ_lt_succ hm)
            rwa [Function.iterate_succ_apply] at this)
          simp only [drainTrace, List.count_cons]
          refine ⟨?_, ?_⟩
          · rw [hrec.1]; simp
          · rw [hrec.2]; simp

/-- Claim C2: uninit never returns while any call remains active.
Whenever uninit returns, the active-call collection is empty, it was
drained by cycles that each terminate the first remaining call, tick
the external event loop exactly once and sleep 10 ms, repeated until
the first poll count at which the collection is empty (and never
stopped earlier); only then is the remaining state torn down: both
conversation indices, the pending-creation set, the two handlers and
the address cache are cleared in the returned state. -/
theorem uninit_drains_all_calls (env : List Nat → List Nat) (fuel : Nat)
    (s st : UninitState) (tr : List DrainEvent)
    (h : CorePrivate.uninit env fuel s = some (st, tr)) :
    st.calls = [] ∧ st.chatRooms = [] ∧ st.chatRoomsById = []
    ∧ st.noCreatedClientGroupChatRooms = []
    ∧ st.remoteListEventHandler = false ∧ st.localListEventHandler = false
    ∧ st.sipAddressesCache = []
    ∧ ∃ n, n ≤ fuel ∧ env^[n] s.calls = []
        ∧ (∀ m, m < n → env^[m] s.calls ≠ [])
        ∧ tr = drainTrace env n s.calls
        ∧ tr.count DrainEvent.iterate = n
        ∧ tr.count (DrainEvent.sleep 10000) = n := by
  unfold CorePrivate.uninit at h
  rcases hloop : uninitLoop env fuel s.calls [] with - | ⟨fc, trace⟩
  · rw [hloop] at h; exact absurd h (by simp)
  · rw [hloop] at h
    simp only [Option.some.injEq, Prod.mk.injEq] at h
    rcases h with ⟨hst, htr⟩
    rcases uninitLoop_spec env fuel s.calls [] fc trace hloop with
      ⟨hfc, n, hn, hempty, hmin, htrace⟩
    subst hst htr
    rcases drainTrace_counts env n s.calls hmin with ⟨hci, hcs⟩
    rw [List.nil_append] at htrace
    subst htrace
    exact ⟨hfc, rfl, rfl, rfl, rfl, rfl, rfl, n, hn, hempty, hmin, rfl, hci, hcs⟩

/-- Witness for C2: two active calls drained by an environment that
removes the front call per tick, with every non-call field nonempty
before teardown. -/
theorem uninit_drains_all_calls_witness :
    ({ calls := [], chatRooms := [], chatRoomsById := [],
       noCreatedClientGroupChatRooms := [], remoteListEventHandler := false,
       localListEventHandler := false, sipAddressesCache := [] } : UninitState).calls = []
    ∧ ∃ n, n ≤ 2
        ∧ (fun calls => List.tail calls)^[n] [1, 2] = []
        ∧ (∀ m, m < n → (fun calls => List.tail calls)^[m] [1, 2] ≠ [])
        ∧ ([DrainEvent.terminate 1, DrainEvent.iterate, DrainEvent.sleep 10000,
            DrainEvent.terminate 2, DrainEvent.iterate, DrainEvent.sleep 10000]
              : List DrainEvent)
            = drainTrace (fun calls => List.tail calls) n [1, 2] := by
  have h := uninit_drains_all_calls (fun calls => List.tail calls) 2
    { calls := [1, 2], chatRooms := [⟨"sip:a@x", 3⟩],
      chatRoomsById := [(5, ⟨"sip:a@x", 3⟩)],
      noCreatedClientGroupChatRooms := [⟨"sip:b@x", 1⟩],
      remoteListEventHandler := true, localListEventHandler := true,
      sipAddressesCache := ["sip:a@x"] }
    { calls := [], chatRooms := [], chatRoomsById := [],
      noCreatedClientGroupChatRooms := [], remoteListEventHandler := false,
      localListEventHandler := false, sipAddressesCache := [] }
    [DrainEvent.terminate 1, DrainEvent.iterate, DrainEvent.sleep 10000,
     DrainEvent.terminate 2, DrainEvent.iterate, DrainEvent.sleep 10000]
    rfl
  rcases h.2.2.2.2.2.2.2 with ⟨n, hn, hempty, hmin, htr, -, -⟩
  exact ⟨h.1, n, hn, hempty, hmin, htr⟩

/-! ## Storage, init and the unread-message aggregation -/

namespace MainDb

/-- Modelled from the spec: MainDb::getUnreadChatMessageCount, the
storage-engine unread-count query, is not part of the sources; the
spec describes the no-argument unread count as the sum of the
unread-message counts over every conversation entity, so the query is
modelled as that sum over the persisted conversation entities. -/
def getUnreadChatMessageCount (rooms : List ChatRoom) : Int :=
  (rooms.map (fun r => r.unreadChatMessageCount)).sum

end MainDb

/-- The chat-related state of the core: the in-memory conversation
collection (d->chatRooms) and the conversation entities persisted
behind the mainDb storage handle. CorePrivate::init loads the
persisted entities into the in-memory collection (loadChatRooms), so
after init the two coincide. -/
structure ChatState where
  chatRooms : List ChatRoom
  mainDbRooms : List ChatRoom
  deriving DecidableEq, Repr

namespace Core

/-- Core::getUnreadChatMessageCount, no-argument overload: delegates
wholesale to the storage unread-count query on mainDb. -/
def getUnreadChatMessageCount (s : ChatState) : Int :=
  MainDb.getUnreadChatMessageCount s.mainDbRooms

/-- Core::getUnreadChatMessageCount(localAddress) overload: walks the
in-memory conversation collection and accumulates the unread count of
every chat room whose local address equals the argument exactly. -/
def getUnreadChatMessageCountOf (localAddress : IdentityAddress)
    (chatRooms : List ChatRoom) : Int :=
  chatRooms.foldl (fun count chatRoom =>
    if chatRoom.localAddress = localAddress
    then count + chatRoom.unreadChatMessageCount
    else count) 0

/-- Core::getUnreadChatMessageCountFromActiveLocals: inserts the
primary contact identity and then every proxy-config identity into a
set, then accumulates the unread count of every chat room whose local
address is found in the set. -/
def getUnreadChatMessageCountFromActiveLocals
    (primaryContact : IdentityAddress) (proxyIdentities : List IdentityAddress)
    (chatRooms : List ChatRoom) : Int :=
  let localAddresses : Finset IdentityAddress :=
    proxyIdentities.foldl (fun s a => insert a s) {primaryContact}
  chatRooms.foldl (fun count chatRoom =>
    if chatRoom.localAddress ∈ localAddresses
    then count + chatRoom.unreadChatMessageCount
    else count) 0

end Core

/-- The storage section of the configuration: the values of keys
"uri" and "backend", each either absent (nullptr) or present. -/
structure StorageConfig where
  uri : Option String
  backend : Option String
  deriving DecidableEq, Repr

/-- AbstractDb::Backend: Sqlite3 is the primary variant, Mysql the
alternate one. -/
inductive Backend where
  | Sqlite3
  | Mysql
  deriving DecidableEq, Repr

/-- The fixed database filename appended to the data directory
(the LINPHONE_DB macro in the source). -/
def LINPHONE_DB : String := "linphone.db"

/-- The storage-resolution step of CorePrivate::init: read the
configured uri (the L_C_TO_STRING wrapper maps an absent value to the
empty string); when the uri is non-empty, compare the configured
backend value against the literal "mysql" (strcmp, case-sensitive),
Mysql on a match and Sqlite3 on any other present value, using the
uri verbatim. The backend read has no L_C_TO_STRING wrapper, so with
the uri non-empty and the backend key absent the nullptr default of
lp_config_get_string flows straight into strcmp: a null-pointer
crash, modelled as none. When the uri is absent or empty, force
Sqlite3 and synthesize getDataPath() ++ LINPHONE_DB. -/
def resolveStorage (config : StorageConfig) (dataPath : String) :
    Option (Backend × String) :=
  let uri := config.uri.getD ""
  if uri ≠ "" then
    match config.backend with
    | none => none
    | some b => some (if b = "mysql" then Backend.Mysql else Backend.Sqlite3, uri)
  else
    some (Backend.Sqlite3, dataPath ++ LINPHONE_DB)

/-- The storage phase of CorePrivate::init: resolve backend and uri,
open the storage connection (mainDb->connect, outcome given by the
environment connectOk), and on success load the persisted
conversation entities into the in-memory collection (loadChatRooms).
The outer none is the null-pointer crash inside resolution (the
program faults before reaching the open); a failed open raises a
fatal-level error (lFatal aborts the program before anything else
runs), modelled as the error result carrying the fatal message. -/
def CorePrivate.init (connectOk : Backend → String → Bool)
    (config : StorageConfig) (dataPath : String)
    (persistedChatRooms : List ChatRoom) :
    Option (Except String (Backend × String × ChatState)) :=
  match resolveStorage config dataPath with
  | none => none
  | some resolved =>
      if connectOk resolved.1 resolved.2 then
        some (Except.ok (resolved.1, resolved.2,
          { chatRooms := persistedChatRooms, mainDbRooms := persistedChatRooms }))
      else
        some (Except.error "Unable to open linphone database.")

/-! ## Aggregation lemmas and claim theorems -/

/-- The accumulate-if fold over chat rooms equals the accumulator plus
the sum over the filtered rooms. -/
theorem foldl_count_filter (p : ChatRoom → Prop) [DecidablePred p] :
    ∀ (rooms : List ChatRoom) (acc : Int),
      rooms.foldl (fun count chatRoom =>
        if p chatRoom then count + chatRoom.unreadChatMessageCount else count) acc
      = acc + ((rooms.filter (fun r => p r)).map
          (fun r => r.unreadChatMessageCount)).sum := by
  intro rooms
  induction rooms with
  | nil => intro acc; simp
  | cons r rooms ih =>
      intro acc
      by_cases h : p r
      · rw [List.foldl_cons, if_pos h, ih, List.filter_cons,
          if_pos (by simpa using h), List.map_cons, List.sum_cons]
        ring
      · rw [List.foldl_cons, if_neg h, ih, List.filter_cons,
          if_neg (by simpa using h)]

/-- Membership in a fold of set insertions is membership in the
initial set or in the inserted list. -/
theorem mem_foldl_insert (a : IdentityAddress) :
    ∀ (L : List IdentityAddress) (init : Finset IdentityAddress),
      a ∈ L.foldl (fun s x => insert x s) init ↔ a ∈ init ∨ a ∈ L := by
  intro L
  induction L with
  | nil => intro init; simp
  | cons x L ih =>
      intro init
      rw [List.foldl_cons, ih]
      simp only [Finset.mem_insert, List.mem_cons]
      tauto

/-- Claim C3: the no-argument unreadCount returns the sum of the
per-entity unread counts over every conversation entity in the
in-memory collection (the storage query it delegates to aggregates
the same persisted entities that loadChatRooms put in the
collection); over an empty collection it returns 0. -/
theorem unreadCount_sums_all_conversations (s : ChatState)
    (h : s.chatRooms = s.mainDbRooms) :
    Core.getUnreadChatMessageCount s
      = (s.chatRooms.map (fun r => r.unreadChatMessageCount)).sum
    ∧ (s.chatRooms = [] → Core.getUnreadChatMessageCount s = 0) := by
  constructor
  · rw [Core.getUnreadChatMessageCount, MainDb.getUnreadChatMessageCount, h]
  · intro he
    rw [Core.getUnreadChatMessageCount, MainDb.getUnreadChatMessageCount, ← h, he]
    rfl

/-- Witness for C3: a two-room collection and the empty collection. -/
theorem unreadCount_sums_all_conversations_witness :
    Core.getUnreadChatMessageCount ⟨[⟨"sip:a@x", 2⟩, ⟨"sip:b@x", 3⟩],
        [⟨"sip:a@x", 2⟩, ⟨"sip:b@x", 3⟩]⟩
      = ([⟨"sip:a@x", 2⟩, ⟨"sip:b@x", 3⟩].map
          (fun r : ChatRoom => r.unreadChatMessageCount)).sum
    ∧ Core.getUnreadChatMessageCount (⟨[], []⟩ : ChatState) = 0 :=
  ⟨(unreadCount_sums_all_conversations
      ⟨[⟨"sip:a@x", 2⟩, ⟨"sip:b@x", 3⟩], [⟨"sip:a@x", 2⟩, ⟨"sip:b@x", 3⟩]⟩ rfl).1,
   (unreadCount_sums_all_conversations (⟨[], []⟩ : ChatState) rfl).2 rfl⟩

/-- Claim C8: unreadCount(addr) is the sum of per-entity unread counts
over exactly the entities whose local address equals addr under exact
equality; an entity with any other local address leaves the result
unchanged, and with no matching entity the result is 0. -/
theorem unreadCount_filters_by_local_address (addr : IdentityAddress)
    (rooms : List ChatRoom) :
    Core.getUnreadChatMessageCountOf addr rooms
      = ((rooms.filter (fun r => r.localAddress = addr)).map
          (fun r => r.unreadChatMessageCount)).sum
    ∧ (∀ r : ChatRoom, r.localAddress ≠ addr →
        Core.getUnreadChatMessageCountOf addr (r :: rooms)
          = Core.getUnreadChatMessageCountOf addr rooms)
    ∧ ((∀ r ∈ rooms, r.localAddress ≠ addr) →
        Core.getUnreadChatMessageCountOf addr rooms = 0) := by
  have key : Core.getUnreadChatMessageCountOf addr rooms
      = ((rooms.filter (fun r => r.localAddress = addr)).map
          (fun r => r.unreadChatMessageCount)).sum := by
    rw [Core.getUnreadChatMessageCountOf,
      foldl_count_filter (fun r => r.localAddress = addr) rooms 0]
    simp
  refine ⟨key, ?_, ?_⟩
  · intro r hr
    simp only [Core.getUnreadChatMessageCountOf, List.foldl_cons, if_neg hr]
  · intro hall
    rw [key, List.filter_eq_nil_iff.mpr (fun r hr => by
      simpa using hall r hr)]
    rfl

/-- Witness for C8: one matching room, one unrelated room, plus the
unchanged-result and no-match cases at concrete inputs. -/
theorem unreadCount_filters_by_local_address_witness :
    Core.getUnreadChatMessageCountOf "sip:a@x" [⟨"sip:a@x", 2⟩, ⟨"sip:c@x", 9⟩]
      = (([⟨"sip:a@x", 2⟩, ⟨"sip:c@x", 9⟩].filter
          (fun r : ChatRoom => r.localAddress = "sip:a@x")).map
          (fun r : ChatRoom => r.unreadChatMessageCount)).sum
    ∧ Core.getUnreadChatMessageCountOf "sip:a@x"
        (⟨"sip:c@x", 9⟩ :: [⟨"sip:a@x", 2⟩, ⟨"sip:c@x", 9⟩])
      = Core.getUnreadChatMessageCountOf "sip:a@x" [⟨"sip:a@x", 2⟩, ⟨"sip:c@x", 9⟩]
    ∧ Core.getUnreadChatMessageCountOf "sip:a@x" [⟨"sip:c@x", 9⟩] = 0 :=
  ⟨(unreadCount_filters_by_local_address "sip:a@x"
      [⟨"sip:a@x", 2⟩, ⟨"sip:c@x", 9⟩]).1,
   (unreadCount_filters_by_local_address "sip:a@x"
      [⟨"sip:a@x", 2⟩, ⟨"sip:c@x", 9⟩]).2.1 ⟨"sip:c@x", 9⟩ (by decide),
   (unreadCount_filters_by_local_address "sip:a@x"
      [⟨"sip:c@x", 9⟩]).2.2 (by decide)⟩

/-- Claim C7: unreadCountFromActiveLocals sums the unread counts over
exactly the entities whose local address is the primary contact
identity or one of the proxy-config identities; an entity with an
unrelated local address contributes nothing, and listing a proxy
identity twice never changes the result (set semantics absorb the
duplicates). -/
theorem unreadCount_from_active_locals (primaryContact : IdentityAddress)
    (proxyIdentities : List IdentityAddress) (rooms : List ChatRoom) :
    Core.getUnreadChatMessageCountFromActiveLocals primaryContact
        proxyIdentities rooms
      = ((rooms.filter (fun r =>
            r.localAddress = primaryContact
            ∨ r.localAddress ∈ proxyIdentities)).map
          (fun r => r.unreadChatMessageCount)).sum
    ∧ Core.getUnreadChatMessageCountFromActiveLocals primaryContact
        (proxyIdentities ++ proxyIdentities) rooms
      = Core.getUnreadChatMessageCountFromActiveLocals primaryContact
          proxyIdentities rooms := by
  have key : ∀ ps : List IdentityAddress,
      Core.getUnreadChatMessageCountFromActiveLocals primaryContact ps rooms
      = ((rooms.filter (fun r =>
            r.localAddress = primaryContact ∨ r.localAddress ∈ ps)).map
          (fun r => r.unreadChatMessageCount)).sum := by
    intro ps
    rw [Core.getUnreadChatMessageCountFromActiveLocals]
    rw [foldl_count_filter (fun r =>
      r.localAddress ∈ ps.foldl (fun s a => insert a s)
        ({primaryContact} : Finset IdentityAddress)) rooms 0]
    rw [Int.zero_add]
    congr 1
    refine congrArg _ (List.filter_congr ?_)
    intro r hr
    have : r.localAddress ∈ ps.foldl (fun s a => insert a s)
        ({primaryContact} : Finset IdentityAddress)
        ↔ (r.localAddress = primaryContact ∨ r.localAddress ∈ ps) := by
      rw [mem_foldl_insert]
      simp
    simp [this]
  refine ⟨key proxyIdentities, ?_⟩
  rw [key (proxyIdentities ++ proxyIdentities), key proxyIdentities]
  congr 1
  refine congrArg _ (List.filter_congr ?_)
  intro r hr
  simp [List.mem_append, or_self_iff]

/-- Claim C5, counterexample: with uri foo present and the backend key
absent, the backend read passes the nullptr default of
lp_config_get_string straight into strcmp (line 54 has no
L_C_TO_STRING wrapper, unlike the uri read on line 52): the program
crashes instead of selecting a backend, so the resolution is not the
primary-backend selection (Sqlite3, foo) the claim asserts for every
non-mysql backend value. -/
theorem init_storage_resolution_counterexample :
    resolveStorage ⟨some "foo", none⟩ "/data/" = none
    ∧ resolveStorage ⟨some "foo", none⟩ "/data/"
        ≠ some (Backend.Sqlite3, "foo") :=
  ⟨rfl, by decide⟩

/-- Claim C5 as amended: storage resolution at init. A present
non-empty uri is used verbatim; when the backend key is also present,
the variant is Mysql exactly when that key equals the literal "mysql"
(case-sensitively) and Sqlite3 on any other value; when the backend
key is absent with a non-empty uri, the backend read dereferences the
null default inside strcmp and the program crashes rather than
selecting a backend. An absent uri forces Sqlite3 with the data
directory plus the fixed filename; in particular uri foo with backend
othervalue gives Sqlite3 with uri foo. -/
theorem init_storage_resolution (config : StorageConfig)
    (dataPath u b : String) :
    (config.uri = some u → u ≠ "" → config.backend = some b →
      resolveStorage config dataPath
        = some (if b = "mysql" then Backend.Mysql else Backend.Sqlite3, u))
    ∧ (config.uri = some u → u ≠ "" → config.backend = none →
      resolveStorage config dataPath = none)
    ∧ (config.uri = none →
      resolveStorage config dataPath = some (Backend.Sqlite3, dataPath ++ LINPHONE_DB))
    ∧ resolveStorage ⟨some "foo", some "othervalue"⟩ dataPath
        = some (Backend.Sqlite3, "foo") := by
  refine ⟨?_, ?_, ?_, ?_⟩
  · intro hu hne hb
    rw [resolveStorage]
    simp [hu, hb, hne]
  · intro hu hne hb
    rw [resolveStorage]
    simp [hu, hb, hne]
  · intro hu
    rw [resolveStorage]
    simp [hu]
  · rfl

/-- Witness for C5 at concrete configurations: a mysql configuration,
a backend-key-absent configuration (the crash case), an absent uri,
and the othervalue configuration. -/
theorem init_storage_resolution_witness :
    resolveStorage ⟨some "db://h", some "mysql"⟩ "/data/"
      = some (if "mysql" = "mysql" then Backend.Mysql else Backend.Sqlite3, "db://h")
    ∧ resolveStorage ⟨some "foo", none⟩ "/data/" = none
    ∧ resolveStorage ⟨none, some "mysql"⟩ "/data/"
      = some (Backend.Sqlite3, "/data/" ++ LINPHONE_DB)
    ∧ resolveStorage ⟨some "foo", some "othervalue"⟩ "/data/"
      = some (Backend.Sqlite3, "foo") :=
  ⟨(init_storage_resolution ⟨some "db://h", some "mysql"⟩ "/data/" "db://h" "mysql").1
      rfl (by decide) rfl,
   (init_storage_resolution ⟨some "foo", none⟩ "/data/" "foo" "").2.1
      rfl (by decide) rfl,
   (init_storage_resolution ⟨none, some "mysql"⟩ "/data/" "" "").2.2.1 rfl,
   (init_storage_resolution ⟨some "foo", some "othervalue"⟩ "/data/" "" "").2.2.2⟩

/-- Claim C6: a failed storage open during init is fatal. Whenever
resolution reaches the open (resolving to a concrete backend and uri)
and the connection attempt fails, init yields the fatal error report
and nothing else: no ok result exists, so no Session state (in
particular no loaded conversation collection) is ever produced;
conversely the conversation load happens only on a successful open. -/
theorem init_storage_open_failure_fatal (connectOk : Backend → String → Bool)
    (config : StorageConfig) (dataPath : String) (persisted : List ChatRoom)
    (backend : Backend) (uri : String)
    (hres : resolveStorage config dataPath = some (backend, uri))
    (h : connectOk backend uri = false) :
    CorePrivate.init connectOk config dataPath persisted
      = some (Except.error "Unable to open linphone database.")
    ∧ (∀ (b : Backend) (u : String) (loaded : ChatState),
        CorePrivate.init connectOk config dataPath persisted
          ≠ some (Except.ok (b, u, loaded))) := by
  have he : CorePrivate.init connectOk config dataPath persisted
      = some (Except.error "Unable to open linphone database.") := by
    rw [CorePrivate.init, hres]
    simp [h]
  refine ⟨he, ?_⟩
  intro b u loaded
  rw [he]
  simp

/-- Witness for C6: an environment whose connection attempt always
fails, at a concrete configuration that resolves to (Sqlite3, foo). -/
theorem init_storage_open_failure_fatal_witness :
    CorePrivate.init (fun _ _ => false) ⟨some "foo", some "othervalue"⟩ "/data/"
        [⟨"sip:a@x", 2⟩]
      = some (Except.error "Unable to open linphone database.")
    ∧ (∀ (b : Backend) (u : String) (loaded : ChatState),
        CorePrivate.init (fun _ _ => false) ⟨some "foo", some "othervalue"⟩ "/data/"
          [⟨"sip:a@x", 2⟩] ≠ some (Except.ok (b, u, loaded))) :=
  init_storage_open_failure_fatal (fun _ _ => false) ⟨some "foo", some "othervalue"⟩
    "/data/" [⟨"sip:a@x", 2⟩] Backend.Sqlite3 "foo" rfl rfl

/-! ## Port configuration -/

/-- PortConfig from conference/session/port-config.h: the multicast ip
strings default-construct empty, and rtpPort and rtcpPort carry the
default member initializer -1. -/
structure PortConfig where
  multicastIp : String := ""
  multicastBindIp : String := ""
  rtpPort : Int := -1
  rtcpPort : Int := -1
  deriving DecidableEq, Repr

/-- A default-constructed PortConfig: every field takes its default
member initializer. -/
def PortConfig.defaultConstructed : PortConfig := {}

/-- Claim C10: a default-constructed PortConfig has rtpPort -1,
rtcpPort -1, and empty multicastIp and multicastBindIp strings. -/
theorem portConfig_default_values :
    PortConfig.defaultConstructed.rtpPort = -1
    ∧ PortConfig.defaultConstructed.rtcpPort = -1
    ∧ PortConfig.defaultConstructed.multicastIp = ""
    ∧ PortConfig.defaultConstructed.multicastBindIp = "" :=
  ⟨rfl, rfl, rfl, rfl⟩

end LinphoneCore
